import Mathlib

/-
Verification of the step pipeline of `gpt_engineer/steps.py` (repository
kcaswick/gpt-engineer) against its natural-language specification.

The development shallowly embeds the module: the external collaborators that
the spec itself declares out of scope (the on-disk key-value project store,
the conversational session, the interactive console) are modelled as explicit
deterministic values threaded through each step, exactly as the spec describes
their surfaces in section 6.  Python exceptions are modelled with an error
type and `Except`; Python string and list semantics that the module relies on
(`strip`, `lower`, `isdigit`, `int`, negative list indexing) are reproduced as
executable functions.
-/

namespace GptEng

/-- Python exceptions that the embedded code can raise. -/
inductive PyError where
  | assertionError (msg : String)
  | keyError (key : String)
  | nameError (missing : String)
  | attributeError
  | typeError
  | valueError
  | indexError
  | systemExit (code : Nat)
  deriving DecidableEq, Repr

/-- Conversation roles, as in `langchain.schema` message classes. -/
inductive Role where
  | system
  | user
  | assistant
  deriving DecidableEq, Repr

/-- One conversational contribution (spec section 3, Turn). -/
structure Turn where
  role : Role
  text : String
  deriving DecidableEq, Repr

/-- Modelled from the spec: the ConversationStore surface of section 6 (the
class `DB` of `gpt_engineer/db.py` is not among these sources).  A mapping from
logical name to content; `get` returns the content or absent, subscripting an
absent key is a `KeyError`, and `set` replaces the full content under a key. -/
structure Store (α : Type) where
  entries : List (String × α)
  deriving DecidableEq, Repr

def Store.get? {α : Type} (s : Store α) (k : String) : Option α :=
  (s.entries.find? (fun e => e.1 = k)).map (fun e => e.2)

def Store.contains {α : Type} (s : Store α) (k : String) : Bool :=
  (s.get? k).isSome

def Store.set {α : Type} (s : Store α) (k : String) (v : α) : Store α :=
  ⟨(k, v) :: s.entries⟩

/-- Python `store[key]`: the content, or a `KeyError` when the key is absent. -/
def Store.getitem {α : Type} (s : Store α) (k : String) : Except PyError α :=
  match s.get? k with
  | some v => Except.ok v
  | none => Except.error (PyError.keyError k)

theorem Store.get?_set_self {α : Type} (s : Store α) (k : String) (v : α) :
    (s.set k v).get? k = some v := by
  simp [Store.set, Store.get?, List.find?]

theorem Store.get?_set_ne {α : Type} (s : Store α) (k j : String) (v : α)
    (h : j ≠ k) : (s.set k v).get? j = s.get? j := by
  have hd : (decide (k = j)) = false := decide_eq_false (fun he => h he.symm)
  simp [Store.set, Store.get?, List.find?, hd]

theorem Store.getitem_eq_ok {α : Type} (s : Store α) (k : String) (v : α)
    (h : s.get? k = some v) : s.getitem k = Except.ok v := by
  simp [Store.getitem, h]

theorem Store.getitem_eq_err {α : Type} (s : Store α) (k : String)
    (h : s.get? k = none) : s.getitem k = Except.error (PyError.keyError k) := by
  simp [Store.getitem, h]

/-- The shared project store `DBs` of `gpt_engineer/db.py`, with the five
sub-stores `steps.py` touches.  Logs hold conversation logs as values: the
serializer pair of `ai.py` is specified (spec section 3) to persist logs
verbatim, so the stored value is the log itself (see
`AI.deserialize_messages`). -/
structure DBs where
  memory : Store String
  logs : Store (List Turn)
  preprompts : Store String
  input : Store String
  workspace : Store String
  deriving DecidableEq, Repr

/-- Modelled from the spec: the ConversationSession of section 6, a
deterministic stub as in spec section 8 (Sequential determinism): an infinite
stream of canned responses and a cursor. -/
structure AI where
  stream : Nat → String
  cursor : Nat

/-- Draw the next canned assistant response. -/
def AI.query (ai : AI) : String × AI :=
  (ai.stream ai.cursor, ⟨ai.stream, ai.cursor + 1⟩)

def AI.fsystem (t : String) : Turn := ⟨Role.system, t⟩

def AI.fuser (t : String) : Turn := ⟨Role.user, t⟩

def AI.fassistant (t : String) : Turn := ⟨Role.assistant, t⟩

/-- Session `start`: builds the initial system plus user pair and appends the
response (spec section 6). -/
def AI.start (ai : AI) (sys user : String) : List Turn × AI :=
  let r := ai.query
  ([AI.fsystem sys, AI.fuser user, AI.fassistant r.1], r.2)

/-- Session `next`: appends an optional user turn, issues the exchange and
appends the response (spec section 6). -/
def AI.next (ai : AI) (messages : List Turn) (prompt : Option String) :
    List Turn × AI :=
  let msgs := match prompt with
    | some p => messages ++ [AI.fuser p]
    | none => messages
  let r := ai.query
  (msgs ++ [AI.fassistant r.1], r.2)

/-- Modelled from the spec: `AI.deserialize_messages` of `gpt_engineer/ai.py`
(not among these sources).  Section 3 of the spec requires logs to be persisted
verbatim, serialized and deserialized so that a later step resumes exactly;
with logs stored as values, deserialization is the identity on the stored log. -/
def AI.deserialize_messages (log : List Turn) : List Turn := log

/-- Modelled from the spec: the interactive console (out of scope per spec
section 1), a deterministic stream of operator input lines. -/
structure Console where
  stream : Nat → String
  cursor : Nat

def Console.readLine (c : Console) : String × Console :=
  (c.stream c.cursor, ⟨c.stream, c.cursor + 1⟩)

/-- The full mutable state a step sees: the session stub, the console stub,
the store, and a fuel bound for the interactive loops. -/
structure EngineState where
  ai : AI
  console : Console
  dbs : DBs
  fuel : Nat

/-- The content of the last message, `messages[-1].content`.  Every call site
in `steps.py` applies it to a log that has just been extended by the session,
hence nonempty; the empty default is unreachable there. -/
def lastText (log : List Turn) : String :=
  ((log.getLast?).map Turn.text).getD ""

theorem lastText_concat (l : List Turn) (t : Turn) :
    lastText (l ++ [t]) = t.text := by
  simp [lastText, List.getLast?_concat]

theorem lastText_concat2 (l : List Turn) (a b : Turn) :
    lastText (l ++ [a, b]) = b.text := by
  rw [show l ++ [a, b] = (l ++ [a]) ++ [b] by simp]
  exact lastText_concat _ _

/- Reduction lemmas for the `Except` monad operations the step bodies use. -/

theorem except_bind_ok {α β : Type} (a : α) (f : α → Except PyError β) :
    (Except.ok a >>= f) = f a := rfl

theorem except_bind_err {α β : Type} (e : PyError) (f : α → Except PyError β) :
    ((Except.error e : Except PyError α) >>= f) = Except.error e := rfl

theorem except_map_ok {α β : Type} (f : α → β) (a : α) :
    (f <$> (Except.ok a : Except PyError α)) = Except.ok (f a) := rfl

theorem except_map_err {α β : Type} (f : α → β) (e : PyError) :
    (f <$> (Except.error e : Except PyError α)) = Except.error e := rfl

theorem except_throw_eq {α : Type} (e : PyError) :
    (throw e : Except PyError α) = Except.error e := rfl

theorem text_fsystem (t : String) : (AI.fsystem t).text = t := rfl

theorem text_fuser (t : String) : (AI.fuser t).text = t := rfl

theorem text_fassistant (t : String) : (AI.fassistant t).text = t := rfl

/- Python string and list semantics used by the module. -/

/-- The characters Python `str.strip` and `\s` treat as whitespace (ASCII). -/
def py_space (c : Char) : Bool :=
  c = ' ' || c = '\t' || c = '\n' || c = '\r' ||
    c = Char.ofNat 11 || c = Char.ofNat 12

def py_strip_list (cs : List Char) : List Char :=
  ((cs.dropWhile py_space).reverse.dropWhile py_space).reverse

/-- Python `str.strip()` on ASCII whitespace. -/
def py_strip (s : String) : String := String.mk (py_strip_list s.data)

/-- Python `str.lower()` (ASCII letters suffice for the texts involved). -/
def py_lower (s : String) : String := String.mk (s.data.map Char.toLower)

def py_startswith_go : List Char → List Char → Bool
  | [], _ => true
  | _ :: _, [] => false
  | p :: ps, c :: cs => p = c && py_startswith_go ps cs

/-- Python `str.startswith`. -/
def py_startswith (s pre : String) : Bool := py_startswith_go pre.data s.data

/-- Python `str.isdigit()`: nonempty and all digits.  Non-ASCII digit
characters (for which `isdigit` and `int` disagree in Python) are not
modelled. -/
def py_isdigit (s : String) : Bool :=
  !s.data.isEmpty && s.data.all Char.isDigit

/-- Decimal value of an all-digit string, the `int(...)` of the numeric menu
branch (only applied after `isdigit` succeeded). -/
def py_int_digits (s : String) : Int :=
  Int.ofNat (s.data.foldl (fun acc c => acc * 10 + (c.toNat - 48)) 0)

/-- Python `int(str)` in general: optional sign around digits after stripping,
`ValueError` otherwise. -/
def py_int_conv (s : String) : Except PyError Int :=
  let t := py_strip s
  let core :=
    if py_startswith t "-" || py_startswith t "+" then String.mk (t.data.drop 1) else t
  if !core.data.isEmpty && core.data.all Char.isDigit then
    Except.ok (if py_startswith t "-" then -(py_int_digits core) else py_int_digits core)
  else Except.error PyError.valueError

/-- The effective index of Python subscripting: negative indices count from
the end. -/
def py_index (len : Nat) (i : Int) : Int :=
  if i < 0 then Int.ofNat len + i else i

/-- Python list subscripting `xs[i]`: negative indices count from the end,
out-of-range raises `IndexError`. -/
def py_list_get {α : Type} (xs : List α) (i : Int) : Except PyError α :=
  if 0 ≤ py_index xs.length i then
    match xs.get? (py_index xs.length i).toNat with
    | some v => Except.ok v
    | none => Except.error PyError.indexError
  else Except.error PyError.indexError

/-- The backtick character. -/
def bq : Char := Char.ofNat 96

/-- A fence of three backticks. -/
def fence3 : String := String.mk [bq, bq, bq]

/-- Helper of the spec-modelled Codec decode: collect the lines of a fenced
block up to (excluding) the closing fence line, returning also the remaining
lines after the close. -/
def take_block : List String → List String × List String
  | [] => ([], [])
  | l :: ls =>
    if py_startswith l fence3 then ([], ls)
    else
      let r := take_block ls
      (l :: r.1, r.2)

theorem take_block_rest_le : ∀ ls : List String, (take_block ls).2.length ≤ ls.length := by
  intro ls
  induction ls with
  | nil => simp [take_block]
  | cons l ls ih =>
    by_cases h : py_startswith l fence3 = true <;> simp [take_block, h] <;> omega

/-- Helper of the spec-modelled Codec decode: strip fencing decoration,
emphasis markup and a trailing colon from a candidate filename header line
(spec section 4.1). -/
def header_junk (c : Char) : Bool :=
  c = bq || c = '*' || c = ':' || py_space c

def clean_header (s : String) : String :=
  String.mk (((s.data.dropWhile header_junk).reverse.dropWhile header_junk).reverse)

/-- Modelled from the spec: the Codec decode of section 4.1
(`gpt_engineer/chat_to_files.py` is not among these sources).  Scans for a
filename header line followed, possibly after blank lines, by an opening
fence; the block content runs to the closing fence line; a fenced block with
no pending header produces no file. -/
def codec_decode_go (pending : Option String) (lines : List String) :
    List (String × String) :=
  match lines with
  | [] => []
  | l :: ls =>
    if py_startswith l fence3 then
      let r := take_block ls
      match pending with
      | some h => (h, String.intercalate "\n" r.1) :: codec_decode_go none r.2
      | none => codec_decode_go none r.2
    else if py_strip l = "" then codec_decode_go pending ls
    else codec_decode_go (some (clean_header l)) ls
termination_by lines.length
decreasing_by
  all_goals (have h1 := take_block_rest_le ls; simp only [List.length_cons]; omega)

def codec_decode (chat : String) : List (String × String) :=
  (codec_decode_go none (chat.splitOn "\n")).filter (fun pc => pc.1 ≠ "")

/-- Modelled from the spec: `to_files` of `gpt_engineer/chat_to_files.py` (not
among these sources).  Persists the full chat blob (the `all_output.txt`
artifact that `gen_entrypoint` and `use_feedback` read back) and writes every
decoded (path, content) pair into the workspace, later blocks winning. -/
def to_files (chat : String) (workspace : Store String) : Store String :=
  (codec_decode chat).foldl (fun ws pc => ws.set pc.1 pc.2)
    (workspace.set "all_output.txt" chat)

/-- Modelled from the spec: `format_file_to_input` of
`gpt_engineer/chat_to_files.py` (Codec Encode, spec section 4.1): the path as
a header line followed by a fenced block holding the raw content. -/
def format_file_to_input (file_name content : String) : String :=
  file_name ++ "\n" ++ fence3 ++ "\n" ++ content ++ "\n" ++ fence3 ++ "\n"

/-- Modelled from the spec: `overwrite_files` of
`gpt_engineer/chat_to_files.py` (selective overwrite, spec section 4.1): only
decoded blocks whose paths appear in the operator-approved file list are
written. -/
def overwrite_files (chat : String) (dbs : DBs) : DBs :=
  let allowed := (((dbs.input.get? "file_list.txt").getD "").splitOn "\n").map py_strip
  let blocks := (codec_decode chat).filter (fun pc => allowed.contains pc.1)
  { dbs with workspace := blocks.foldl (fun ws pc => ws.set pc.1 pc.2) dbs.workspace }

/- The steps of `steps.py`. -/

/-- `setup_sys_prompt` (steps.py lines 25-35). -/
def setup_sys_prompt (dbs : DBs) : Except PyError String := do
  let roadmap ← dbs.preprompts.getitem "roadmap"
  let generate ← dbs.preprompts.getitem "generate"
  let philosophy ← dbs.preprompts.getitem "philosophy"
  pure (roadmap ++ generate ++ "\nUseful to know:\n" ++ philosophy)

/-- `setup_sys_prompt_existing_code` (steps.py lines 38-46). -/
def setup_sys_prompt_existing_code (dbs : DBs) : Except PyError String := do
  let impl ← dbs.preprompts.getitem "implement_on_existing"
  let philosophy ← dbs.preprompts.getitem "philosophy"
  pure (impl ++ "\nUseful to know:\n" ++ philosophy)

def get_prompt_assert_msg : String :=
  "Please put your prompt in the file `prompt` in the project directory"

/-- `get_prompt` (steps.py lines 49-65): asserts that `prompt` or the legacy
`main_prompt` is present; prefers `prompt`, falling back to `main_prompt` with
a printed warning. -/
def get_prompt (dbs : DBs) : Except PyError String := do
  if !(dbs.input.contains "prompt" || dbs.input.contains "main_prompt") then
    throw (PyError.assertionError get_prompt_assert_msg)
  else if !(dbs.input.contains "prompt") then
    dbs.input.getitem "main_prompt"
  else
    dbs.input.getitem "prompt"

/-- `simple_gen` (steps.py lines 81-85).  Python evaluates the arguments of
`ai.start` left to right: `setup_sys_prompt` before `get_prompt`. -/
def simple_gen (st : EngineState) : Except PyError (List Turn × EngineState) := do
  let sys ← setup_sys_prompt st.dbs
  let prompt ← get_prompt st.dbs
  let r := st.ai.start sys prompt
  let ws := to_files (py_strip (lastText r.1)) st.dbs.workspace
  pure (r.1, { st with ai := r.2, dbs := { st.dbs with workspace := ws } })

/-- `ask_feedback` (steps.py lines 199-209): `dbs.memory.get("review", None)`
is `None` when absent, and the display string concatenation
`"The most recent review was: " + review` then raises `TypeError` before the
`input(...)` prompt is reached. -/
def ask_feedback (st : EngineState) : Except PyError (List Turn × EngineState) :=
  match st.dbs.memory.get? "review" with
  | none => Except.error PyError.typeError
  | some review =>
    let r := st.console.readLine
    let value := if r.1 ≠ "" then r.1 else review
    Except.ok ([], { st with
      console := r.2,
      dbs := { st.dbs with input := st.dbs.input.set "feedback" value } })

/- Classification sub-protocol of the BranchingLoop. -/

/-- The possible results of a successful `json.loads`: a mapping (on which
`.get` is defined) or any other JSON value (on which `.get` raises
`AttributeError`). -/
inductive JsonVal where
  | dict (entries : List (String × String))
  | nondict
  deriving DecidableEq, Repr

/-- `json.loads` as reachable from `steps.py`: the module imports `inspect`,
`re` and `subprocess` plus named symbols (source lines 1-20) but never `json`,
so evaluating `json.loads(raw_result)` raises `NameError` for every argument,
before any JSON parsing can occur.  Inside `choice_input` this lands in the
`except Exception` handler. -/
def json_loads (_raw : String) : Except PyError JsonVal :=
  Except.error (PyError.nameError "json")

/-- `json.dumps` as reachable from `steps.py`: the same unbound module name,
so `json.dumps(messages)` in the body runner of `choice_loop` (line 307)
raises `NameError` — there with no surrounding handler. -/
def json_dumps (_messages : List Turn) : Except PyError String :=
  Except.error (PyError.nameError "json")

/-- The classification system prompt of `choice_input` (steps.py lines
224-233); the examples block is commented out in the source, so
`examples_str` is empty. -/
def choice_system_prompt (choices_str : String) : String :=
  "You are a highly intelligent and accurate Multiclass Classification system.\n" ++
  "You take Passage as input and classify that as one of the following appropriate Categories:\n" ++
  choices_str ++ "\n" ++
  "If the input does not belong to any of the categories, output None.\n" ++
  "Your output format is only [\x7b\x27C\x27: Appropriate Category from the list of provided Categories\x7d] form, no other form.\n"

def choice_user_prompt (text_input : String) : String :=
  "Input: " ++ text_input ++ "\nOutput:\n"

/-- `choice_input` (steps.py lines 212-246): one classification exchange, a
defensive parse of the response, and `result.get("C", None)`. -/
def choice_input (ai : AI) (choices : List String) (text_input : String) :
    Except PyError (Option String × AI) :=
  let choices_str := String.intercalate "\n" choices
  let r := ai.start (choice_system_prompt choices_str) (choice_user_prompt text_input)
  let raw_result := lastText r.1
  match json_loads raw_result with
  | Except.error _ => Except.ok (none, r.2)
  | Except.ok v =>
    match v with
    | JsonVal.dict entries =>
      Except.ok ((entries.find? (fun e => e.1 = "C")).map (fun e => e.2), r.2)
    | JsonVal.nondict => Except.error PyError.attributeError

/-- The loop-body naming convention marker (source name `LOOP_BODY_PREFIX`,
renamed here). -/
def LOOP_BODY_TAG : String := "loop_body_"

/-- The `Config` enumeration (steps.py lines 635-650). -/
inductive Config where
  | default
  | benchmark
  | simple
  | tdd
  | tddPlus
  | clarify
  | respec
  | executeOnly
  | evaluate
  | useFeedback
  | improveCode
  | evalImproveCode
  | choiceLoop
  | loopBodyFeedback
  | loopBodyEvaluate
  deriving DecidableEq, Repr

/-- The string value of each `Config` member. -/
def Config.str : Config → String
  | Config.default => "default"
  | Config.benchmark => "benchmark"
  | Config.simple => "simple"
  | Config.tdd => "tdd"
  | Config.tddPlus => "tdd+"
  | Config.clarify => "clarify"
  | Config.respec => "respec"
  | Config.executeOnly => "execute_only"
  | Config.evaluate => "evaluate"
  | Config.useFeedback => "use_feedback"
  | Config.improveCode => "improve_code"
  | Config.evalImproveCode => "eval_improve_code"
  | Config.choiceLoop => "choice_loop"
  | Config.loopBodyFeedback => LOOP_BODY_TAG ++ "feedback"
  | Config.loopBodyEvaluate => LOOP_BODY_TAG ++ "evaluate"

/-- The keys of the `STEPS` dictionary in insertion order: the dict literal of
lines 654-716 followed by the `LOOP_BODY_FEEDBACK` entry added on line 717. -/
def STEPS_ORDER : List Config :=
  [Config.default, Config.benchmark, Config.simple, Config.tdd, Config.tddPlus,
   Config.clarify, Config.respec, Config.useFeedback, Config.executeOnly,
   Config.evaluate, Config.improveCode, Config.evalImproveCode,
   Config.choiceLoop, Config.loopBodyEvaluate, Config.loopBodyFeedback]

/-- `loop_body_keys` of `choice_loop` (line 254): the step keys carrying the
loop-body marker, in `STEPS` insertion order. -/
def loop_body_keys : List String :=
  (STEPS_ORDER.map Config.str).filter (fun k => py_startswith k LOOP_BODY_TAG)

/-- Python `str.title()` (ASCII): uppercase a letter after a non-letter,
lowercase a letter after a letter. -/
def py_title_go : Bool → List Char → List Char
  | _, [] => []
  | prevAlpha, c :: cs =>
    (if c.isAlpha then (if prevAlpha then c.toLower else c.toUpper) else c) ::
      py_title_go c.isAlpha cs

def py_title (s : String) : String := String.mk (py_title_go false s.data)

/-- Python `str.removeprefix`-style drop of a leading marker. -/
def py_drop_marker (s marker : String) : String :=
  if py_startswith s marker then String.mk (s.data.drop marker.data.length) else s

/-- The numbered human-readable menu entries built by `choice_loop`
(lines 263-266). -/
def menu_choices (keys : List String) : List String :=
  keys.enum.map (fun ik =>
    toString (ik.1 + 1) ++ ". " ++ py_title (py_drop_marker ik.2 LOOP_BODY_TAG))

/-- What one pass of the inner prompt of `choice_loop` (lines 259-302)
resolves to. -/
inductive MenuOutcome where
  | terminated
  | selected (key : String)
  | reprompted
  | raised (e : PyError)
  deriving DecidableEq, Repr

/-- One pass of the inner prompt of `choice_loop` (steps.py lines 259-302):
print the menu, read operator input, and either terminate on the literal
"done"/"quit", pick by number when the input is all digits, or ask the
classifier; `reprompted` is the branch that prints the not-understood message
and loops back to re-display the menu with nothing selected. -/
def choice_menu_once (ai : AI) (console : Console) : MenuOutcome × AI × Console :=
  let keys := loop_body_keys
  let choices := menu_choices keys
  let r := console.readLine
  let user_input := r.1
  let console2 := r.2
  if user_input = "done" || user_input = "quit" then
    (MenuOutcome.terminated, ai, console2)
  else if py_isdigit user_input then
    match py_list_get keys (py_int_digits user_input - 1) with
    | Except.ok k => (MenuOutcome.selected k, ai, console2)
    | Except.error e => (MenuOutcome.raised e, ai, console2)
  else
    match choice_input ai choices user_input with
    | Except.error e => (MenuOutcome.raised e, ai, console2)
    | Except.ok (none, ai2) => (MenuOutcome.reprompted, ai2, console2)
    | Except.ok (some label, ai2) =>
      match py_int_conv label with
      | Except.error e => (MenuOutcome.raised e, ai2, console2)
      | Except.ok n =>
        match py_list_get keys (n - 1) with
        | Except.ok k => (MenuOutcome.selected k, ai2, console2)
        | Except.error e => (MenuOutcome.raised e, ai2, console2)

/- The clarify step. -/

/-- The follow-up text appended to the operator answer (lines 342-348). -/
def clarify_followup_suffix : String :=
  "\n\nIs anything else unclear? If yes, only answer in the form:\n" ++
  "\x7bremaining unclear areas\x7d remaining questions.\n" ++
  "\x7bNext question\x7d\n" ++
  "If everything is sufficiently clear, only answer \"Nothing more to clarify.\"."

def clarify_assume_msg : String :=
  "Make your own assumptions and state them explicitly before starting"

/-- The result of one pass of the clarify exchange loop: either the loop is
over (returning the accumulated log) or it continues with the next operator
answer. -/
inductive ClarifyIter where
  | done (messages : List Turn) (ai : AI) (console : Console)
  | again (messages : List Turn) (user_input : String) (ai : AI) (console : Console)

/-- The console component of a clarify pass result; the operator was prompted
exactly when its cursor advanced. -/
def ClarifyIter.consoleOf : ClarifyIter → Console
  | ClarifyIter.done _ _ c => c
  | ClarifyIter.again _ _ _ c => c

/-- One pass of the clarify loop (steps.py lines 316-348): issue the exchange,
stop on the sentinel or on a reply whose stripped lowercase form starts with
"no"; otherwise prompt the operator, an empty answer or "c" yielding the final
make-assumptions exchange, anything else continuing the loop. -/
def clarify_iteration (ai : AI) (console : Console) (messages : List Turn)
    (user_input : String) : ClarifyIter :=
  let r := ai.next messages (some user_input)
  let messages2 := r.1
  let ai2 := r.2
  let msg := py_strip (lastText messages2)
  if msg = "Nothing more to clarify." then ClarifyIter.done messages2 ai2 console
  else if py_startswith (py_lower msg) "no" then ClarifyIter.done messages2 ai2 console
  else
    let c := console.readLine
    if c.1 = "" || c.1 = "c" then
      let r2 := ai2.next messages2 (some clarify_assume_msg)
      ClarifyIter.done r2.1 r2.2 c.2
    else
      ClarifyIter.again messages2 (c.1 ++ clarify_followup_suffix) ai2 c.2

/-- The clarify exchange loop, bounded by fuel (the Python `while True` can
run for as long as the operator keeps answering; fuel exhaustion returns the
log accumulated so far). -/
def clarify_loop : Nat → AI → Console → List Turn → String →
    List Turn × AI × Console
  | 0, ai, console, messages, _ => (messages, ai, console)
  | Nat.succ n, ai, console, messages, user_input =>
    match clarify_iteration ai console messages user_input with
    | ClarifyIter.done m a c => (m, a, c)
    | ClarifyIter.again m ui a c => clarify_loop n a c m ui

/-- `clarify` (steps.py lines 310-351). -/
def clarify (st : EngineState) : Except PyError (List Turn × EngineState) := do
  let clarify_pre ← st.dbs.preprompts.getitem "clarify"
  let user_input ← get_prompt st.dbs
  let r := clarify_loop st.fuel st.ai st.console [AI.fsystem clarify_pre] user_input
  pure (r.1, { st with ai := r.2.1, console := r.2.2 })

/- Specification generation and revision. -/

/-- `gen_spec` (steps.py lines 354-368). -/
def gen_spec (st : EngineState) : Except PyError (List Turn × EngineState) := do
  let sys ← setup_sys_prompt st.dbs
  let prompt ← st.dbs.input.getitem "prompt"
  let spec_pre ← st.dbs.preprompts.getitem "spec"
  let messages : List Turn :=
    [AI.fsystem sys, AI.fsystem ("Instructions: " ++ prompt)]
  let r := st.ai.next messages (some spec_pre)
  let dbs2 := { st.dbs with
    memory := st.dbs.memory.set "specification" (py_strip (lastText r.1)) }
  pure (r.1, { st with ai := r.2, dbs := dbs2 })

def respec_reiterate : String :=
  "Based on the conversation so far, please reiterate the specification for the program. " ++
  "If there are things that can be improved, please incorporate the improvements. " ++
  "If you are satisfied with the specification, just write out the specification word by word again."

/-- `respec` (steps.py lines 371-391): loads the persisted `gen_spec` log,
appends the respec preprompt, runs two exchanges and overwrites the
specification artifact. -/
def respec (st : EngineState) : Except PyError (List Turn × EngineState) := do
  let prior ← st.dbs.logs.getitem "gen_spec"
  let respec_pre ← st.dbs.preprompts.getitem "respec"
  let messages := AI.deserialize_messages prior ++ [AI.fsystem respec_pre]
  let r1 := st.ai.next messages none
  let r2 := r1.2.next r1.1 (some respec_reiterate)
  let dbs2 := { st.dbs with
    memory := st.dbs.memory.set "specification" (py_strip (lastText r2.1)) }
  pure (r2.1, { st with ai := r2.2, dbs := dbs2 })

/-- `gen_unit_tests` (steps.py lines 394-409). -/
def gen_unit_tests (st : EngineState) : Except PyError (List Turn × EngineState) := do
  let sys ← setup_sys_prompt st.dbs
  let prompt ← st.dbs.input.getitem "prompt"
  let specification ← st.dbs.memory.getitem "specification"
  let ut_pre ← st.dbs.preprompts.getitem "unit_tests"
  let messages : List Turn :=
    [AI.fsystem sys, AI.fuser ("Instructions: " ++ prompt),
     AI.fuser ("Specification:\n\n" ++ specification)]
  let r := st.ai.next messages (some ut_pre)
  let content := py_strip (lastText r.1)
  let dbs2 := { st.dbs with
    memory := st.dbs.memory.set "unit_tests" content }
  let dbs3 := { dbs2 with workspace := to_files content dbs2.workspace }
  pure (r.1, { st with ai := r.2, dbs := dbs3 })

/-- `gen_clarified_code` (steps.py lines 412-424): loads the persisted
`clarify` log (a `KeyError` when absent), keeps every turn after the leading
priming turn, and continues the conversation with the generate preprompt. -/
def gen_clarified_code (st : EngineState) : Except PyError (List Turn × EngineState) := do
  let prior ← st.dbs.logs.getitem "clarify"
  let messages := AI.deserialize_messages prior
  let sys ← setup_sys_prompt st.dbs
  let gen_pre ← st.dbs.preprompts.getitem "generate"
  let messages1 := AI.fsystem sys :: messages.drop 1
  let r := st.ai.next messages1 (some gen_pre)
  let dbs2 := { st.dbs with
    workspace := to_files (py_strip (lastText r.1)) st.dbs.workspace }
  pure (r.1, { st with ai := r.2, dbs := dbs2 })

/-- `gen_code_after_unit_tests` (steps.py lines 427-437). -/
def gen_code_after_unit_tests (st : EngineState) :
    Except PyError (List Turn × EngineState) := do
  let sys ← setup_sys_prompt st.dbs
  let prompt ← st.dbs.input.getitem "prompt"
  let specification ← st.dbs.memory.getitem "specification"
  let unit_tests ← st.dbs.memory.getitem "unit_tests"
  let gen_pre ← st.dbs.preprompts.getitem "generate"
  let messages : List Turn :=
    [AI.fsystem sys, AI.fuser ("Instructions: " ++ prompt),
     AI.fuser ("Specification:\n\n" ++ specification),
     AI.fuser ("Unit tests:\n\n" ++ unit_tests)]
  let r := st.ai.next messages (some gen_pre)
  let dbs2 := { st.dbs with
    workspace := to_files (py_strip (lastText r.1)) st.dbs.workspace }
  pure (r.1, { st with ai := r.2, dbs := dbs2 })

/- Entrypoint generation and execution. -/

/-- `execute_entrypoint` (steps.py lines 440-481).  The subprocess invocation
is an external collaborator (spec sections 1 and 5): its effect is not part of
the core state; only the `run.sh` read and the blocking confirmation prompt
are modelled.  Declining and accepting both return an empty log. -/
def execute_entrypoint (st : EngineState) : Except PyError (List Turn × EngineState) := do
  let _command ← st.dbs.workspace.getitem "run.sh"
  let r := st.console.readLine
  let st2 := { st with console := r.2 }
  if r.1 = "" || r.1 = "y" || r.1 = "yes" then
    pure ([], st2)
  else
    pure ([], st2)

/-- The system prompt of `gen_entrypoint` (lines 486-497). -/
def gen_entrypoint_system : String :=
  "You will get information about a codebase that is currently on disk in the current folder.\n" ++
  "From this you will answer with code blocks that includes all the necessary unix terminal commands to " ++
  "a) install dependencies b) run all necessary parts of the codebase (in parallel if necessary).\n" ++
  "Do not install globally. Do not use sudo.\n" ++
  "Do not explain the code, just give the commands.\n" ++
  "Do not use placeholders, use example values (like . for a folder argument) if necessary.\n"

/- The fenced-block scanner of `gen_entrypoint`: the regex
 three backticks, then greedy non-whitespace (the language tag), a newline,
 a lazy nonempty body (DOTALL), and a closing three backticks, iterated
 left to right without overlap (`re.finditer`). -/

/-- Split a character list at the first occurrence of a three-backtick fence:
the characters before it and the characters after it. -/
def fence_split : List Char → Option (List Char × List Char)
  | a :: b :: c :: rest =>
    if a = bq ∧ b = bq ∧ c = bq then some ([], rest)
    else
      match fence_split (b :: c :: rest) with
      | some pr => some (a :: pr.1, pr.2)
      | none => none
  | _ => none

/-- The lazy group `(.+?)` followed by the closing fence: the shortest
nonempty body such that a fence follows, with the remainder after the fence. -/
def find_close : List Char → Option (List Char × List Char)
  | [] => none
  | c :: cs =>
    match fence_split cs with
    | some pr => some (c :: pr.1, pr.2)
    | none => none

/-- Attempt the fence pattern at the head of the input: the opening fence, a
greedy run of non-whitespace tag characters that must be followed by a
newline, then the lazy body and the closing fence.  Returns the body and the
remainder after the match. -/
def match_fence_at (cs : List Char) : Option (List Char × List Char) :=
  match cs with
  | a :: b :: c :: rest =>
    if a = bq ∧ b = bq ∧ c = bq then
      match rest.dropWhile (fun ch => !py_space ch) with
      | nl :: body => if nl = '\n' then find_close body else none
      | [] => none
    else none
  | _ => none

theorem length_dropWhile_le (p : Char → Bool) (l : List Char) :
    (l.dropWhile p).length ≤ l.length := by
  induction l with
  | nil => simp [List.dropWhile]
  | cons c cs ih =>
    by_cases h : p c = true <;> simp [List.dropWhile, h] <;> omega

theorem fence_split_length :
    ∀ cs pre rest : List Char, fence_split cs = some (pre, rest) →
      pre.length + 3 + rest.length = cs.length := by
  intro cs
  induction cs with
  | nil => intro pre rest h; simp [fence_split] at h
  | cons a tail ih =>
    intro pre rest h
    match tail with
    | [] => simp [fence_split] at h
    | [b] => simp [fence_split] at h
    | b :: c :: t3 =>
      rw [fence_split] at h
      by_cases hf : a = bq ∧ b = bq ∧ c = bq
      · rw [if_pos hf] at h
        cases h
        simp only [List.length_nil, List.length_cons]
        omega
      · rw [if_neg hf] at h
        cases he : fence_split (b :: c :: t3) with
        | none => rw [he] at h; cases h
        | some pr =>
          rw [he] at h
          cases h
          have hlen := ih pr.1 pr.2 (by rw [he])
          simp at hlen ⊢
          omega

theorem find_close_length (cs content rest : List Char)
    (h : find_close cs = some (content, rest)) : rest.length + 4 ≤ cs.length := by
  match cs with
  | [] => simp [find_close] at h
  | c :: tail =>
    rw [find_close] at h
    cases he : fence_split tail with
    | none => rw [he] at h; cases h
    | some pr =>
      rw [he] at h
      cases h
      have hlen := fence_split_length tail pr.1 pr.2 (by rw [he])
      simp
      omega

theorem match_fence_at_length (cs content rest : List Char)
    (h : match_fence_at cs = some (content, rest)) : rest.length < cs.length := by
  match cs with
  | [] => simp [match_fence_at] at h
  | [a] => simp [match_fence_at] at h
  | [a, b] => simp [match_fence_at] at h
  | a :: b :: c :: tail =>
    rw [match_fence_at] at h
    by_cases hf : a = bq ∧ b = bq ∧ c = bq
    · rw [if_pos hf] at h
      have hdw := length_dropWhile_le (fun ch => !py_space ch) tail
      cases hd : tail.dropWhile (fun ch => !py_space ch) with
      | nil => rw [hd] at h; cases h
      | cons nl body =>
        rw [hd] at h
        have h2 : (if nl = '\n' then find_close body else none) = some (content, rest) := h
        by_cases hnl : nl = '\n'
        · rw [if_pos hnl] at h2
          have := find_close_length body content rest h2
          rw [hd] at hdw
          simp at hdw ⊢
          omega
        · rw [if_neg hnl] at h2; cases h2
    · rw [if_neg hf] at h; cases h

/-- The scan of `re.finditer` over the whole response: attempt the pattern at
each position left to right, emitting the body of each non-overlapping match. -/
def scan_fences (cs : List Char) : List (List Char) :=
  match h : match_fence_at cs with
  | some pr => pr.1 :: scan_fences pr.2
  | none =>
    match cs with
    | [] => []
    | _ :: rest => scan_fences rest
termination_by cs.length
decreasing_by
  · exact match_fence_at_length cs pr.1 pr.2 (by rw [h])
  · simp

/-- The block contents extracted by `gen_entrypoint` (line 503-505), in
encounter order. -/
def extract_code_blocks (s : String) : List String :=
  (scan_fences s.data).map String.mk

/-- `gen_entrypoint` (steps.py lines 484-506): one exchange about the stored
`all_output.txt`, then `run.sh` is set to the newline-joined bodies of all
fenced blocks of the stripped response. -/
def gen_entrypoint (st : EngineState) : Except PyError (List Turn × EngineState) := do
  let all_output ← st.dbs.workspace.getitem "all_output.txt"
  let r := st.ai.start gen_entrypoint_system
    ("Information about the codebase:\n\n" ++ all_output)
  let payload := String.intercalate "\n" (extract_code_blocks (py_strip (lastText r.1)))
  let dbs2 := { st.dbs with workspace := st.dbs.workspace.set "run.sh" payload }
  pure (r.1, { st with ai := r.2, dbs := dbs2 })

/-- `use_feedback` (steps.py lines 509-526): reloads previously generated code
and applies the feedback artifact; an empty feedback prints an explanation and
exits the process. -/
def use_feedback (st : EngineState) : Except PyError (List Turn × EngineState) := do
  let sys ← setup_sys_prompt st.dbs
  let prompt ← st.dbs.input.getitem "prompt"
  let all_output ← st.dbs.workspace.getitem "all_output.txt"
  let messages : List Turn :=
    [AI.fsystem sys, AI.fuser ("Instructions: " ++ prompt), AI.fassistant all_output]
  let feedback ← st.dbs.input.getitem "feedback"
  if feedback ≠ "" then
    let r := st.ai.next messages (some feedback)
    let dbs2 := { st.dbs with
      workspace := to_files (py_strip (lastText r.1)) st.dbs.workspace }
    pure (r.1, { st with ai := r.2, dbs := dbs2 })
  else
    throw (PyError.systemExit 1)

/-- `set_improve_filelist` (steps.py lines 529-532).  Modelled from the spec:
`ask_for_files` (gpt_engineer/file_selector.py, not among these sources)
interactively stores the operator-selected file list in the input store;
modelled as reading one console line into the `file_list.txt` artifact. -/
def set_improve_filelist (st : EngineState) : Except PyError (List Turn × EngineState) :=
  let r := st.console.readLine
  Except.ok ([], { st with
    console := r.2,
    dbs := { st.dbs with input := st.dbs.input.set "file_list.txt" r.1 } })

/-- `assert_files_ready` (steps.py lines 535-542). -/
def assert_files_ready (st : EngineState) : Except PyError (List Turn × EngineState) := do
  if !(st.dbs.input.contains "file_list.txt") then
    throw (PyError.assertionError
      "For auto_mode file_list.txt need to be in your project folder.")
  else if !(st.dbs.input.contains "prompt") then
    throw (PyError.assertionError "For auto_mode a prompt file must exist.")
  else
    pure ([], st)

/-- `get_improve_prompt` (steps.py lines 545-570): reads the improvement
prompt from the operator, builds the confirmation text (which subscripts
`file_list.txt`, a `KeyError` when absent) and blocks on a second console
read. -/
def get_improve_prompt (st : EngineState) : Except PyError (List Turn × EngineState) := do
  let r := st.console.readLine
  let dbs2 := { st.dbs with input := st.dbs.input.set "prompt" r.1 }
  let _file_list ← dbs2.input.getitem "file_list.txt"
  let r2 := r.2.readLine
  pure ([], { st with console := r2.2, dbs := dbs2 })

/-- Modelled from the spec: `get_code_strings`
(gpt_engineer/chat_to_files.py, not among these sources) returns the
(file name, content) pairs of the operator-approved files; modelled over the
workspace view of the store using the names listed in `file_list.txt`. -/
def get_code_strings (dbs : DBs) : Except PyError (List (String × String)) := do
  let fl ← dbs.input.getitem "file_list.txt"
  pure ((((fl.splitOn "\n").map py_strip).filter (fun l => l ≠ "")).filterMap
    (fun l => (dbs.workspace.get? l).map (fun c => (l, c))))

/-- The output format reminder of `improve_existing_code` (lines 590-600). -/
def improve_output_format : String :=
  "\n    Make sure the output of any files is in the following format where\n" ++
  "    FILENAME is the file name including the file extension, and the file path.  Do not\n" ++
  "    forget to include the file path.\n" ++
  "    LANG is the markup code block language for the code\x27s language, and CODE is the code:\n\n" ++
  "    FILENAME\n    " ++ fence3 ++ "LANG\n    CODE\n    " ++ fence3 ++ "\n    "

/-- `improve_existing_code` (steps.py lines 573-605). -/
def improve_existing_code (st : EngineState) : Except PyError (List Turn × EngineState) := do
  let files_info ← get_code_strings st.dbs
  let sys ← setup_sys_prompt_existing_code st.dbs
  let prompt ← st.dbs.input.getitem "prompt"
  let messages : List Turn :=
    [AI.fsystem sys, AI.fuser ("Instructions: " ++ prompt)] ++
      files_info.map (fun fc => AI.fuser (format_file_to_input fc.1 fc.2))
  let r := st.ai.next messages (some improve_output_format)
  let dbs2 := overwrite_files (py_strip (lastText r.1)) st.dbs
  pure (r.1, { st with ai := r.2, dbs := dbs2 })

/-- `fix_code` (steps.py lines 608-621): loads the persisted
`gen_code_after_unit_tests` log and asks for fixes. -/
def fix_code (st : EngineState) : Except PyError (List Turn × EngineState) := do
  let prior ← st.dbs.logs.getitem "gen_code_after_unit_tests"
  let code_output := py_strip (lastText (AI.deserialize_messages prior))
  let sys ← setup_sys_prompt st.dbs
  let prompt ← st.dbs.input.getitem "prompt"
  let fix_pre ← st.dbs.preprompts.getitem "fix_code"
  let messages : List Turn :=
    [AI.fsystem sys, AI.fuser ("Instructions: " ++ prompt), AI.fuser code_output,
     AI.fsystem fix_pre]
  let r := st.ai.next messages (some "Please fix any errors in the code above.")
  let dbs2 := { st.dbs with
    workspace := to_files (py_strip (lastText r.1)) st.dbs.workspace }
  pure (r.1, { st with ai := r.2, dbs := dbs2 })

/-- `human_review` (steps.py lines 624-629).  Modelled from the spec:
`human_review_input` (gpt_engineer/learning.py, not among these sources)
collects an optional operator review; modelled as one console line, the empty
line meaning no review was given, the serialized review being the line
itself. -/
def human_review (st : EngineState) : Except PyError (List Turn × EngineState) :=
  let r := st.console.readLine
  let dbs2 :=
    if r.1 = "" then st.dbs
    else { st.dbs with memory := st.dbs.memory.set "review" r.1 }
  Except.ok ([], { st with console := r.2, dbs := dbs2 })

/- The step registry and the engine. -/

/-- A registered step: its name (`step.__name__`, the key its log is
persisted under) and its body (spec section 3, Step). -/
structure Step where
  name : String
  run : EngineState → Except PyError (List Turn × EngineState)

def step_simple_gen : Step := ⟨"simple_gen", simple_gen⟩
def step_ask_feedback : Step := ⟨"ask_feedback", ask_feedback⟩
def step_clarify : Step := ⟨"clarify", clarify⟩
def step_gen_spec : Step := ⟨"gen_spec", gen_spec⟩
def step_respec : Step := ⟨"respec", respec⟩
def step_gen_unit_tests : Step := ⟨"gen_unit_tests", gen_unit_tests⟩
def step_gen_clarified_code : Step := ⟨"gen_clarified_code", gen_clarified_code⟩
def step_gen_code_after_unit_tests : Step :=
  ⟨"gen_code_after_unit_tests", gen_code_after_unit_tests⟩
def step_execute_entrypoint : Step := ⟨"execute_entrypoint", execute_entrypoint⟩
def step_gen_entrypoint : Step := ⟨"gen_entrypoint", gen_entrypoint⟩
def step_use_feedback : Step := ⟨"use_feedback", use_feedback⟩
def step_set_improve_filelist : Step := ⟨"set_improve_filelist", set_improve_filelist⟩
def step_assert_files_ready : Step := ⟨"assert_files_ready", assert_files_ready⟩
def step_get_improve_prompt : Step := ⟨"get_improve_prompt", get_improve_prompt⟩
def step_improve_existing_code : Step := ⟨"improve_existing_code", improve_existing_code⟩
def step_fix_code : Step := ⟨"fix_code", fix_code⟩
def step_human_review : Step := ⟨"human_review", human_review⟩

/-- The step lists of the two loop-body workflows
(`STEPS[Config.LOOP_BODY_EVALUATE]` and the `STEPS[Config.LOOP_BODY_FEEDBACK]`
assembled on line 717); `choice_loop` only ever looks up keys carrying the
loop-body marker, so its dispatch is closed over these. -/
def LOOP_BODY_STEPS (key : String) : List Step :=
  if key = LOOP_BODY_TAG ++ "evaluate" then
    [step_execute_entrypoint, step_human_review]
  else if key = LOOP_BODY_TAG ++ "feedback" then
    [step_ask_feedback, step_use_feedback, step_gen_entrypoint,
     step_execute_entrypoint, step_human_review]
  else []

/-- The body runner of `choice_loop` (steps.py lines 304-307): run each chosen
step, then `dbs.logs[step.__name__] = json.dumps(messages)`.  The right-hand
side is evaluated before the store write, and `json` is unbound in the
module. -/
def run_body_steps : List Step → EngineState → Except PyError EngineState
  | [], st => pure st
  | s :: rest, st => do
    let r ← s.run st
    let _serialized ← json_dumps r.1
    let st2 := r.2
    run_body_steps rest
      { st2 with dbs := { st2.dbs with logs := st2.dbs.logs.set s.name r.1 } }

/-- The outer loop of `choice_loop` (lines 257-307), bounded by fuel: each
round resolves the menu and, when a workflow was selected, runs its body. -/
def choice_loop_go : Nat → EngineState → Except PyError (List Turn × EngineState)
  | 0, st => pure ([], st)
  | Nat.succ n, st =>
    match choice_menu_once st.ai st.console with
    | (MenuOutcome.terminated, ai2, console2) =>
      pure ([], { st with ai := ai2, console := console2 })
    | (MenuOutcome.reprompted, ai2, console2) =>
      choice_loop_go n { st with ai := ai2, console := console2 }
    | (MenuOutcome.raised e, _, _) => throw e
    | (MenuOutcome.selected key, ai2, console2) => do
      let st2 ← run_body_steps (LOOP_BODY_STEPS key)
        { st with ai := ai2, console := console2 }
      choice_loop_go n st2

/-- `choice_loop` (steps.py lines 249-307). -/
def choice_loop (st : EngineState) : Except PyError (List Turn × EngineState) :=
  choice_loop_go st.fuel st

def step_choice_loop : Step := ⟨"choice_loop", choice_loop⟩

/-- The `STEPS` catalog (steps.py lines 654-717). -/
def STEPS : Config → List Step
  | Config.default =>
    [step_clarify, step_gen_clarified_code, step_gen_entrypoint,
     step_execute_entrypoint, step_human_review]
  | Config.benchmark => [step_simple_gen, step_gen_entrypoint]
  | Config.simple => [step_simple_gen, step_gen_entrypoint, step_execute_entrypoint]
  | Config.tdd =>
    [step_gen_spec, step_gen_unit_tests, step_gen_code_after_unit_tests,
     step_gen_entrypoint, step_execute_entrypoint, step_human_review]
  | Config.tddPlus =>
    [step_gen_spec, step_gen_unit_tests, step_gen_code_after_unit_tests,
     step_fix_code, step_gen_entrypoint, step_execute_entrypoint, step_human_review]
  | Config.clarify =>
    [step_clarify, step_gen_clarified_code, step_gen_entrypoint,
     step_execute_entrypoint, step_human_review]
  | Config.respec =>
    [step_gen_spec, step_respec, step_gen_unit_tests,
     step_gen_code_after_unit_tests, step_fix_code, step_gen_entrypoint,
     step_execute_entrypoint, step_human_review]
  | Config.useFeedback =>
    [step_use_feedback, step_gen_entrypoint, step_execute_entrypoint,
     step_human_review]
  | Config.executeOnly => [step_execute_entrypoint]
  | Config.evaluate => [step_execute_entrypoint, step_human_review]
  | Config.improveCode =>
    [step_set_improve_filelist, step_get_improve_prompt, step_improve_existing_code]
  | Config.evalImproveCode => [step_assert_files_ready, step_improve_existing_code]
  | Config.choiceLoop => [step_choice_loop]
  | Config.loopBodyEvaluate => LOOP_BODY_STEPS (LOOP_BODY_TAG ++ "evaluate")
  | Config.loopBodyFeedback => LOOP_BODY_STEPS (LOOP_BODY_TAG ++ "feedback")

/-- Modelled from the spec: the engine of section 4.2 (the driver module is
not among these sources) runs each step of a workflow in order and persists
the returned log under the step name immediately after the step returns; a
fatal error aborts the remaining sequence, already-written artifacts
remaining. -/
def run_workflow_steps : List Step → EngineState → Except PyError EngineState
  | [], st => pure st
  | s :: rest, st => do
    let r ← s.run st
    let st2 := r.2
    run_workflow_steps rest
      { st2 with dbs := { st2.dbs with logs := st2.dbs.logs.set s.name r.1 } }

/- Sample states used by the witness theorems. -/

/-- A deterministic session stub answering `r` to every exchange. -/
def ai_stub (r : String) : AI := ⟨fun _ => r, 0⟩

/-- A deterministic console stub answering `r` to every prompt. -/
def console_stub (r : String) : Console := ⟨fun _ => r, 0⟩

/-- A preprompts store holding every document `steps.py` reads. -/
def preprompts0 : Store String :=
  ⟨[("roadmap", "R."), ("generate", "G."), ("philosophy", "P."), ("clarify", "K."),
    ("spec", "S."), ("respec", "RS."), ("unit_tests", "U."), ("fix_code", "F."),
    ("implement_on_existing", "I.")]⟩

def dbs0 : DBs :=
  { memory := ⟨[]⟩, logs := ⟨[]⟩, preprompts := preprompts0,
    input := ⟨[("prompt", "build a CLI calculator")]⟩, workspace := ⟨[]⟩ }

def st0 : EngineState :=
  { ai := ai_stub "resp", console := console_stub "", dbs := dbs0, fuel := 3 }

/- Claims. -/

/-- Claim C1: for every model response to the classification request,
`choice_input` returns no label — the module-level name `json` is unbound, so
`json.loads` raises inside the defensive `except` handler and
`result.get("C", None)` is `None` — and the classification branch of
`choice_loop` resolves to the reprompt outcome (the not-understood message is
printed and the menu re-displayed, nothing selected); no parse exception
escapes the classification path. -/
theorem c1_classification_fallback (ai : AI) (console : Console) :
    (∀ choices text, ∃ ai2 : AI,
        choice_input ai choices text = Except.ok (none, ai2)) ∧
    (console.stream console.cursor ≠ "done" →
      console.stream console.cursor ≠ "quit" →
      py_isdigit (console.stream console.cursor) = false →
      (choice_menu_once ai console).1 = MenuOutcome.reprompted) := by
  constructor
  · intro choices text
    exact ⟨_, rfl⟩
  · intro h1 h2 h3
    simp [choice_menu_once, Console.readLine, h1, h2, h3, choice_input, json_loads]

theorem c1_classification_fallback_witness :
    (choice_menu_once (ai_stub "total garbage") (console_stub "hello")).1 =
      MenuOutcome.reprompted :=
  (c1_classification_fallback (ai_stub "total garbage") (console_stub "hello")).2
    (by decide) (by decide) (by rfl)

/-- Claim C2 counterexample: the operator input "0" is neither "done"/"quit"
nor a positive integer within menu range, so by the claim it would have to be
submitted to the classifier (which, per C1, never selects anything); instead
the numeric branch takes it and Python negative indexing selects the LAST
loop-body workflow.  Likewise "3" is out of range and raises IndexError
instead of being classified. -/
theorem c2_menu_counterexample :
    (choice_menu_once (ai_stub "") (console_stub "0")).1 =
        MenuOutcome.selected "loop_body_feedback" ∧
    (choice_menu_once (ai_stub "") (console_stub "0")).1 ≠ MenuOutcome.reprompted ∧
    (choice_menu_once (ai_stub "") (console_stub "3")).1 =
        MenuOutcome.raised PyError.indexError := by
  refine ⟨by rfl, by decide, by rfl⟩

/-- Claim C2 as amended: "done"/"quit" terminate with no turns; an input that
consists solely of digits is handled by the numeric branch — `int(input) - 1`
subscripts the loop-body key list, so 1..n selects the corresponding workflow,
0 selects the last workflow through negative indexing, and values above n
raise IndexError; only a non-digit input is submitted to the session as a
classification request (which then reprompts, since the classifier result is
always `None`). -/
theorem c2_menu_branches (ai : AI) (console : Console) :
    ((console.stream console.cursor = "done" ∨ console.stream console.cursor = "quit") →
      (choice_menu_once ai console).1 = MenuOutcome.terminated) ∧
    (console.stream console.cursor ≠ "done" →
      console.stream console.cursor ≠ "quit" →
      py_isdigit (console.stream console.cursor) = true →
      ((∀ k, py_list_get loop_body_keys
            (py_int_digits (console.stream console.cursor) - 1) = Except.ok k →
          (choice_menu_once ai console).1 = MenuOutcome.selected k) ∧
       (py_list_get loop_body_keys
            (py_int_digits (console.stream console.cursor) - 1) =
              Except.error PyError.indexError →
          (choice_menu_once ai console).1 = MenuOutcome.raised PyError.indexError) ∧
       (py_int_digits (console.stream console.cursor) = 0 →
          (choice_menu_once ai console).1 = MenuOutcome.selected "loop_body_feedback"))) ∧
    (console.stream console.cursor ≠ "done" →
      console.stream console.cursor ≠ "quit" →
      py_isdigit (console.stream console.cursor) = false →
      (choice_menu_once ai console).1 = MenuOutcome.reprompted) := by
  refine ⟨?_, ?_, ?_⟩
  · intro h
    rcases h with h | h <;> simp [choice_menu_once, Console.readLine, h]
  · intro h1 h2 h3
    refine ⟨?_, ?_, ?_⟩
    · intro k hk
      simp [choice_menu_once, Console.readLine, h1, h2, h3, hk]
    · intro hk
      simp [choice_menu_once, Console.readLine, h1, h2, h3, hk]
    · intro h0
      have hk : py_list_get loop_body_keys
          (py_int_digits (console.stream console.cursor) - 1) =
            Except.ok "loop_body_feedback" := by
        rw [h0]; rfl
      simp [choice_menu_once, Console.readLine, h1, h2, h3, hk]
  · intro h1 h2 h3
    simp [choice_menu_once, Console.readLine, h1, h2, h3, choice_input, json_loads]

theorem c2_menu_branches_witness :
    (choice_menu_once (ai_stub "") (console_stub "done")).1 = MenuOutcome.terminated :=
  (c2_menu_branches (ai_stub "") (console_stub "done")).1 (Or.inl rfl)

/-- Claim C7 (the code side of the bug): whenever the first chosen sub-step
returns, the body runner of `choice_loop` raises `NameError` at
`json.dumps(messages)` — the module never imports `json` — so no sub-step log
is persisted and no later sub-step runs, contradicting the specified
persist-each-log contract. -/
theorem c7_choice_loop_persist_bug (s : Step) (rest : List Step)
    (st : EngineState) (log : List Turn) (st2 : EngineState)
    (h : s.run st = Except.ok (log, st2)) :
    run_body_steps (s :: rest) st = Except.error (PyError.nameError "json") := by
  simp only [run_body_steps, h, json_dumps]
  rfl

theorem c7_choice_loop_persist_bug_witness :
    run_body_steps [step_human_review] st0 = Except.error (PyError.nameError "json") :=
  c7_choice_loop_persist_bug step_human_review [] st0 [] _ rfl

/-- Claim C9: the engine and every step of the embedding are deterministic
functions of the store, the session stub and the console stub, so two runs of
any catalog workflow from equal states yield equal results — in particular
identical persisted logs and identical final store contents. -/
theorem c9_sequential_determinism (c : Config) (st st2 : EngineState)
    (h : st = st2) :
    run_workflow_steps (STEPS c) st = run_workflow_steps (STEPS c) st2 := by
  rw [h]

theorem c9_sequential_determinism_witness :
    run_workflow_steps (STEPS Config.simple) st0 =
      run_workflow_steps (STEPS Config.simple) st0 :=
  c9_sequential_determinism Config.simple st0 st0 rfl

/-- Claim C10: when no review is stored, `ask_feedback` raises (the `TypeError`
of concatenating `None` into the display string) before the operator prompt is
reached — the error return carries no state, so the feedback artifact is
untouched; with a review present the step is defined and stores a feedback
value. -/
theorem c10_ask_feedback_precondition (st : EngineState) :
    (st.dbs.memory.get? "review" = none →
      ask_feedback st = Except.error PyError.typeError) ∧
    (∀ r, st.dbs.memory.get? "review" = some r →
      ∃ p, ask_feedback st = Except.ok p) := by
  constructor
  · intro h
    simp [ask_feedback, h]
  · intro r h
    simp only [ask_feedback, h]
    exact ⟨_, rfl⟩

theorem c10_ask_feedback_precondition_witness :
    ask_feedback st0 = Except.error PyError.typeError :=
  (c10_ask_feedback_precondition st0).1 rfl

/-- Claim C3: `gen_clarified_code` starts from the persisted log of the
clarify step: when that log is absent the step fails with the
missing-dependency `KeyError` for the key "clarify" rather than starting
fresh; when present, the result log is the deserialized prior log with
exactly its leading priming turn replaced by the generation system prompt —
every later turn kept — continued by one further exchange. -/
theorem c3_gen_clarified_code_replay (st : EngineState) :
    (st.dbs.logs.get? "clarify" = none →
      gen_clarified_code st = Except.error (PyError.keyError "clarify")) ∧
    (∀ log sys gen_pre, st.dbs.logs.get? "clarify" = some log →
      setup_sys_prompt st.dbs = Except.ok sys →
      st.dbs.preprompts.get? "generate" = some gen_pre →
      Except.map Prod.fst (gen_clarified_code st) =
        Except.ok ((AI.fsystem sys :: log.drop 1) ++
          [AI.fuser gen_pre, AI.fassistant (st.ai.stream st.ai.cursor)])) := by
  constructor
  · intro h
    have h1 := Store.getitem_eq_err st.dbs.logs "clarify" h
    simp [gen_clarified_code, h1, except_bind_err]
  · intro log sys gen_pre hlog hsys hgen
    have h1 := Store.getitem_eq_ok st.dbs.logs "clarify" log hlog
    have h2 := Store.getitem_eq_ok st.dbs.preprompts "generate" gen_pre hgen
    simp [gen_clarified_code, h1, h2, hsys, except_bind_ok, except_map_ok,
      AI.next, AI.query, AI.deserialize_messages, Except.map]

/-- The clarify-step log used by the C3 witness. -/
def clarify_log0 : List Turn :=
  [AI.fsystem "K.", AI.fuser "build a CLI calculator",
   AI.fassistant "Nothing more to clarify."]

def st_clarified : EngineState :=
  { ai := ai_stub "the code", console := console_stub "",
    dbs := { dbs0 with logs := ⟨[("clarify", clarify_log0)]⟩ }, fuel := 3 }

theorem c3_gen_clarified_code_replay_witness :
    Except.map Prod.fst (gen_clarified_code st_clarified) =
      Except.ok ((AI.fsystem "R.G.\nUseful to know:\nP." :: clarify_log0.drop 1) ++
        [AI.fuser "G.", AI.fassistant "the code"]) :=
  (c3_gen_clarified_code_replay st_clarified).2 clarify_log0
    "R.G.\nUseful to know:\nP." "G." rfl rfl rfl

/-- Claim C5: one pass of the clarify exchange loop ends the loop, without
prompting the operator, exactly when the stripped assistant reply equals the
sentinel "Nothing more to clarify." or its stripped lowercase form starts with
"no"; for every other reply the operator is prompted (the console advances),
whether the answer continues the loop or triggers the final make-assumptions
exchange. -/
theorem c5_clarify_sentinel (ai : AI) (console : Console) (messages : List Turn)
    (user_input : String) :
    ((py_strip (ai.stream ai.cursor) = "Nothing more to clarify." ∨
        py_startswith (py_lower (py_strip (ai.stream ai.cursor))) "no" = true) →
      clarify_iteration ai console messages user_input =
        ClarifyIter.done
          (messages ++ [AI.fuser user_input, AI.fassistant (ai.stream ai.cursor)])
          ⟨ai.stream, ai.cursor + 1⟩ console) ∧
    (py_strip (ai.stream ai.cursor) ≠ "Nothing more to clarify." →
      py_startswith (py_lower (py_strip (ai.stream ai.cursor))) "no" = false →
      (clarify_iteration ai console messages user_input).consoleOf =
        ⟨console.stream, console.cursor + 1⟩) := by
  constructor
  · intro h
    by_cases h1 : py_strip (ai.stream ai.cursor) = "Nothing more to clarify."
    · simp [clarify_iteration, AI.next, AI.query, lastText_concat, lastText_concat2,
        text_fassistant, h1]
    · have h2 : py_startswith (py_lower (py_strip (ai.stream ai.cursor))) "no" = true := by
        rcases h with h | h
        · exact absurd h h1
        · exact h
      simp [clarify_iteration, AI.next, AI.query, lastText_concat, lastText_concat2,
        text_fassistant, h1, h2]
  · intro h1 h2
    by_cases h3 : console.stream console.cursor = "" ∨ console.stream console.cursor = "c"
    · simp [clarify_iteration, AI.next, AI.query, lastText_concat, lastText_concat2,
        text_fassistant, h1, h2, Console.readLine, h3, ClarifyIter.consoleOf]
    · simp [clarify_iteration, AI.next, AI.query, lastText_concat, lastText_concat2,
        text_fassistant, h1, h2, Console.readLine, h3, ClarifyIter.consoleOf]

theorem c5_clarify_sentinel_witness :
    clarify_iteration (ai_stub " No, that is clear. ") (console_stub "x") [] "q" =
      ClarifyIter.done
        [AI.fuser "q", AI.fassistant " No, that is clear. "]
        ⟨(ai_stub " No, that is clear. ").stream, 1⟩ (console_stub "x") :=
  (c5_clarify_sentinel (ai_stub " No, that is clear. ") (console_stub "x") [] "q").1
    (Or.inr (by rfl))

/-- An input store carrying only the legacy main_prompt document. -/
def dbs_legacy : DBs :=
  { memory := ⟨[]⟩, logs := ⟨[]⟩, preprompts := preprompts0,
    input := ⟨[("main_prompt", "legacy prompt text")]⟩, workspace := ⟨[]⟩ }

def st_legacy : EngineState :=
  { ai := ai_stub "resp", console := console_stub "", dbs := dbs_legacy, fuel := 3 }

/-- Claim C6 counterexample: the prompt artifact is absent from the input
store, yet `get_prompt` does not fail — it proceeds on the legacy
`main_prompt` document (after a printed warning), and `simple_gen` runs to
completion on it. -/
theorem c6_prompt_counterexample :
    dbs_legacy.input.contains "prompt" = false ∧
    get_prompt dbs_legacy = Except.ok "legacy prompt text" ∧
    (∃ p, simple_gen st_legacy = Except.ok p) := by
  exact ⟨rfl, rfl, ⟨_, rfl⟩⟩

/-- Claim C6 as amended: the prompt-reading precondition fails — with the
assertion message as the user-facing explanation — exactly when both `prompt`
and the legacy `main_prompt` are absent from the input store, and `simple_gen`
then aborts with that error; when `prompt` is present its exact stored content
is returned and used as the user turn of `simple_gen`; when only `main_prompt`
is present the step proceeds on that content instead of failing. -/
theorem c6_prompt_precondition (st : EngineState) :
    (st.dbs.input.contains "prompt" = false →
      st.dbs.input.contains "main_prompt" = false →
      get_prompt st.dbs = Except.error (PyError.assertionError get_prompt_assert_msg) ∧
      (∀ sys, setup_sys_prompt st.dbs = Except.ok sys →
        simple_gen st = Except.error (PyError.assertionError get_prompt_assert_msg))) ∧
    (∀ p, st.dbs.input.get? "prompt" = some p →
      get_prompt st.dbs = Except.ok p ∧
      (∀ sys, setup_sys_prompt st.dbs = Except.ok sys →
        Except.map Prod.fst (simple_gen st) = Except.ok
          [AI.fsystem sys, AI.fuser p, AI.fassistant (st.ai.stream st.ai.cursor)])) ∧
    (∀ mp, st.dbs.input.contains "prompt" = false →
      st.dbs.input.get? "main_prompt" = some mp →
      get_prompt st.dbs = Except.ok mp) := by
  refine ⟨?_, ?_, ?_⟩
  · intro h1 h2
    have hg : get_prompt st.dbs =
        Except.error (PyError.assertionError get_prompt_assert_msg) := by
      simp [get_prompt, h1, h2, except_throw_eq]
    refine ⟨hg, ?_⟩
    intro sys hsys
    simp [simple_gen, hsys, hg, except_bind_ok, except_bind_err]
  · intro p hp
    have hc : st.dbs.input.contains "prompt" = true := by
      simp [Store.contains, hp]
    have hg : get_prompt st.dbs = Except.ok p := by
      simp [get_prompt, hc, Store.getitem_eq_ok st.dbs.input "prompt" p hp]
    refine ⟨hg, ?_⟩
    intro sys hsys
    simp [simple_gen, hsys, hg, except_bind_ok, AI.start, AI.query, Except.map]
  · intro mp h1 h2
    have hc2 : st.dbs.input.contains "main_prompt" = true := by
      simp [Store.contains, h2]
    simp [get_prompt, h1, hc2,
      Store.getitem_eq_ok st.dbs.input "main_prompt" mp h2]

theorem c6_prompt_precondition_witness :
    get_prompt st0.dbs = Except.ok "build a CLI calculator" :=
  (((c6_prompt_precondition st0).2.1) "build a CLI calculator" rfl).1

/-- Claim C8: a step write replaces an artifact value whole: `gen_spec` and
`respec` overwrite the full specification artifact with the stripped final
assistant message, leave every other memory key unchanged, and leave the
input, workspace, logs and preprompts stores untouched. -/
theorem c8_full_overwrite (st : EngineState) (log2 : List Turn) (st2 : EngineState) :
    (gen_spec st = Except.ok (log2, st2) →
      st2.dbs.memory.get? "specification" = some (py_strip (lastText log2)) ∧
      (∀ k, k ≠ "specification" → st2.dbs.memory.get? k = st.dbs.memory.get? k) ∧
      st2.dbs.input = st.dbs.input ∧ st2.dbs.workspace = st.dbs.workspace ∧
      st2.dbs.logs = st.dbs.logs ∧ st2.dbs.preprompts = st.dbs.preprompts) ∧
    (respec st = Except.ok (log2, st2) →
      st2.dbs.memory.get? "specification" = some (py_strip (lastText log2)) ∧
      (∀ k, k ≠ "specification" → st2.dbs.memory.get? k = st.dbs.memory.get? k) ∧
      st2.dbs.input = st.dbs.input ∧ st2.dbs.workspace = st.dbs.workspace ∧
      st2.dbs.logs = st.dbs.logs ∧ st2.dbs.preprompts = st.dbs.preprompts) := by
  constructor
  · intro hok
    cases h1 : setup_sys_prompt st.dbs with
    | error e => simp [gen_spec, h1, except_bind_err] at hok
    | ok sys =>
      cases h2 : st.dbs.input.getitem "prompt" with
      | error e => simp [gen_spec, h1, h2, except_bind_ok, except_bind_err] at hok
      | ok prompt =>
        cases h3 : st.dbs.preprompts.getitem "spec" with
        | error e =>
          simp [gen_spec, h1, h2, h3, except_bind_ok, except_bind_err,
            except_map_err] at hok
        | ok spec_pre =>
          simp [gen_spec, h1, h2, h3, except_bind_ok, except_map_ok,
            AI.next, AI.query] at hok
          obtain ⟨hlog, hst⟩ := hok
          subst hlog
          subst hst
          refine ⟨Store.get?_set_self _ _ _, ?_, rfl, rfl, rfl, rfl⟩
          intro k hk
          exact Store.get?_set_ne _ _ _ _ hk
  · intro hok
    cases h1 : st.dbs.logs.getitem "gen_spec" with
    | error e => simp [respec, h1, except_bind_err] at hok
    | ok prior =>
      cases h2 : st.dbs.preprompts.getitem "respec" with
      | error e =>
        simp [respec, h1, h2, except_bind_ok, except_bind_err, except_map_err] at hok
      | ok respec_pre =>
        simp [respec, h1, h2, except_bind_ok, except_map_ok, AI.next, AI.query] at hok
        obtain ⟨hlog, hst⟩ := hok
        subst hlog
        subst hst
        refine ⟨Store.get?_set_self _ _ _, ?_, rfl, rfl, rfl, rfl⟩
        intro k hk
        exact Store.get?_set_ne _ _ _ _ hk

theorem c8_full_overwrite_witness :
    ∃ p, gen_spec st0 = Except.ok p ∧
      p.2.dbs.memory.get? "specification" = some (py_strip (lastText p.1)) := by
  refine ⟨_, rfl, ((c8_full_overwrite st0 _ _).1 rfl).1⟩

/- Claim C4: correctness of the fenced-block scanner of `gen_entrypoint` on
well-formed responses.  A structured document of prose interleaved with
fenced blocks renders to text; the scanner recovers exactly the block
contents, in encounter order, ignoring everything outside the fences (in
particular any filename headers, which are prose). -/

/-- A structured model response: prose interleaved with fenced code blocks. -/
inductive Segment where
  | prose (t : String)
  | block (tag : String) (content : String)
  deriving DecidableEq, Repr

/-- Well-formedness of one segment: prose carries no backtick (so no stray
fence), a tag has no whitespace (matching the greedy non-whitespace tag run of
the regex), and a block content is nonempty and backtick-free (the regex
requires a nonempty lazy body and would close early at an inner fence). -/
def seg_ok : Segment → Bool
  | Segment.prose t => t.data.all (fun c => !(c == bq))
  | Segment.block tag content =>
      tag.data.all (fun c => !py_space c) && !content.data.isEmpty &&
        content.data.all (fun c => !(c == bq))

def doc_ok (doc : List Segment) : Bool := doc.all seg_ok

/-- Render the document to the raw character stream the model would emit:
each block is an opening fence, its tag, a newline, its content, a closing
fence. -/
def render_doc : List Segment → List Char
  | [] => []
  | Segment.prose t :: rest => t.data ++ render_doc rest
  | Segment.block tag content :: rest =>
      bq :: bq :: bq ::
        (tag.data ++ '\n' :: (content.data ++ bq :: bq :: bq :: render_doc rest))

/-- The block contents of a document, in encounter order. -/
def block_contents : List Segment → List String
  | [] => []
  | Segment.prose _ :: rest => block_contents rest
  | Segment.block _ content :: rest => content :: block_contents rest

theorem fence_split_cons (x : Char) (l : List Char) (hx : x ≠ bq) :
    fence_split (x :: l) =
      match fence_split l with
      | some pr => some (x :: pr.1, pr.2)
      | none => none := by
  match l with
  | [] => simp [fence_split]
  | [y] => simp [fence_split]
  | y :: z :: t =>
    rw [fence_split]
    rw [if_neg (fun hf => hx hf.1)]

theorem fence_split_clean :
    ∀ l rest : List Char, (∀ c ∈ l, c ≠ bq) →
      fence_split (l ++ bq :: bq :: bq :: rest) = some (l, rest) := by
  intro l
  induction l with
  | nil =>
    intro rest _
    simp [fence_split]
  | cons x xs ih =>
    intro rest h
    have hx : x ≠ bq := h x (List.mem_cons_self x xs)
    rw [List.cons_append, fence_split_cons x _ hx,
      ih rest (fun c hc => h c (List.mem_cons_of_mem x hc))]

theorem find_close_clean (content rest : List Char) (h1 : content ≠ [])
    (h2 : ∀ c ∈ content, c ≠ bq) :
    find_close (content ++ bq :: bq :: bq :: rest) = some (content, rest) := by
  match content with
  | [] => exact absurd rfl h1
  | c :: cs =>
    have hs := fence_split_clean cs rest
      (fun x hx => h2 x (List.mem_cons_of_mem c hx))
    rw [List.cons_append, find_close, hs]

theorem dropWhile_all (p : Char → Bool) (l r : List Char)
    (h : ∀ c ∈ l, p c = true) :
    (l ++ r).dropWhile p = r.dropWhile p := by
  induction l with
  | nil => rfl
  | cons x xs ih =>
    have hx := h x (List.mem_cons_self x xs)
    rw [List.cons_append, List.dropWhile_cons]
    simp only [hx, if_true]
    exact ih (fun c hc => h c (List.mem_cons_of_mem x hc))

theorem match_fence_at_block (tag content rest : List Char)
    (htag : ∀ c ∈ tag, py_space c = false)
    (hc1 : content ≠ []) (hc2 : ∀ c ∈ content, c ≠ bq) :
    match_fence_at
        (bq :: bq :: bq :: (tag ++ '\n' :: (content ++ bq :: bq :: bq :: rest))) =
      some (content, rest) := by
  have hdrop : (tag ++ '\n' :: (content ++ bq :: bq :: bq :: rest)).dropWhile
      (fun ch => !py_space ch) = '\n' :: (content ++ bq :: bq :: bq :: rest) := by
    rw [dropWhile_all _ tag _ (fun c hc => by rw [htag c hc]; rfl)]
    rw [List.dropWhile_cons]
    norm_num [py_space]
  rw [match_fence_at]
  rw [if_pos ⟨rfl, rfl, rfl⟩]
  rw [hdrop]
  simp only [if_pos rfl]
  exact find_close_clean content rest hc1 hc2

theorem match_fence_at_skip (c : Char) (cs : List Char) (hc : c ≠ bq) :
    match_fence_at (c :: cs) = none := by
  match cs with
  | [] => rfl
  | [b] => rfl
  | b :: d :: t =>
    rw [match_fence_at]
    rw [if_neg (fun hf => hc hf.1)]

theorem scan_fences_nil : scan_fences [] = [] := by
  rw [scan_fences.eq_def]
  rfl

theorem scan_fences_skip (c : Char) (cs : List Char) (hc : c ≠ bq) :
    scan_fences (c :: cs) = scan_fences cs := by
  rw [scan_fences.eq_def]
  split
  · next pr heq =>
    exfalso
    rw [match_fence_at_skip c cs hc] at heq
    cases heq
  · rfl

theorem scan_fences_prose :
    ∀ t cs : List Char, (∀ c ∈ t, c ≠ bq) →
      scan_fences (t ++ cs) = scan_fences cs := by
  intro t
  induction t with
  | nil => intro cs _; rfl
  | cons x xs ih =>
    intro cs ht
    rw [List.cons_append, scan_fences_skip x (xs ++ cs) (ht x (List.mem_cons_self x xs))]
    exact ih cs (fun c hc => ht c (List.mem_cons_of_mem x hc))

theorem scan_fences_block (tag content rest : List Char)
    (htag : ∀ c ∈ tag, py_space c = false)
    (hc1 : content ≠ []) (hc2 : ∀ c ∈ content, c ≠ bq) :
    scan_fences
        (bq :: bq :: bq :: (tag ++ '\n' :: (content ++ bq :: bq :: bq :: rest))) =
      content :: scan_fences rest := by
  rw [scan_fences.eq_def]
  split
  · next pr heq =>
    rw [match_fence_at_block tag content rest htag hc1 hc2] at heq
    cases heq
    rfl
  · next heq =>
    exfalso
    rw [match_fence_at_block tag content rest htag hc1 hc2] at heq
    cases heq

theorem scan_render :
    ∀ doc : List Segment, doc_ok doc = true →
      scan_fences (render_doc doc) = (block_contents doc).map String.data := by
  intro doc
  induction doc with
  | nil =>
    intro _
    exact scan_fences_nil
  | cons s rest ih =>
    intro h
    rw [doc_ok, List.all_cons, Bool.and_eq_true] at h
    obtain ⟨hs, hrest⟩ := h
    cases s with
    | prose t =>
      have ht : ∀ c ∈ t.data, c ≠ bq := by
        rw [seg_ok, List.all_eq_true] at hs
        intro c hc
        have := hs c hc
        simpa using this
      rw [render_doc, scan_fences_prose t.data _ ht]
      exact ih hrest
    | block tag content =>
      rw [seg_ok, Bool.and_eq_true, Bool.and_eq_true] at hs
      obtain ⟨⟨htag, hne⟩, hnb⟩ := hs
      have htag2 : ∀ c ∈ tag.data, py_space c = false := by
        rw [List.all_eq_true] at htag
        intro c hc
        have := htag c hc
        simpa using this
      have hne2 : content.data ≠ [] := by
        simpa using hne
      have hnb2 : ∀ c ∈ content.data, c ≠ bq := by
        rw [List.all_eq_true] at hnb
        intro c hc
        have := hnb c hc
        simpa using this
      rw [render_doc, scan_fences_block tag.data content.data (render_doc rest)
        htag2 hne2 hnb2, ih hrest]
      rfl

theorem map_mk_data (l : List String) : (l.map String.data).map String.mk = l := by
  induction l with
  | nil => rfl
  | cons s t ih =>
    rw [List.map_cons, List.map_cons, ih]

theorem lastText_start_log (a b : String) (c : Turn) :
    lastText [AI.fsystem a, AI.fuser b, c] = c.text := by
  simp [lastText, List.getLast?]

/-- Claim C4: given a response that renders a well-formed document,
`gen_entrypoint` sets the run.sh workspace artifact to exactly the
concatenation, with newline separators and in encounter order, of the
contents of all fenced code blocks; prose outside the fences — filename
headers included — is excluded. -/
theorem c4_gen_entrypoint_blocks (st : EngineState) (doc : List Segment)
    (blob : String)
    (hblob : st.dbs.workspace.get? "all_output.txt" = some blob)
    (hdoc : doc_ok doc = true)
    (hresp : py_strip (st.ai.stream st.ai.cursor) = String.mk (render_doc doc)) :
    Except.map (fun p => p.2.dbs.workspace.get? "run.sh") (gen_entrypoint st) =
      Except.ok (some (String.intercalate "\n" (block_contents doc))) := by
  have hga := Store.getitem_eq_ok st.dbs.workspace "all_output.txt" blob hblob
  have hpayload : extract_code_blocks (py_strip (st.ai.stream st.ai.cursor)) =
      block_contents doc := by
    rw [hresp, extract_code_blocks]
    rw [show (String.mk (render_doc doc)).data = render_doc doc from rfl]
    rw [scan_render doc hdoc]
    exact map_mk_data _
  rw [gen_entrypoint]
  simp [hga, except_bind_ok, AI.start, AI.query, Except.map, lastText_start_log,
    text_fassistant, hpayload, Store.get?_set_self]

/-- The document of the C4 witness: a header line, a tagged block, prose, and
an untagged block. -/
def doc0 : List Segment :=
  [Segment.prose "requirements.txt\n", Segment.block "sh" "pip install -r requirements.txt\n",
   Segment.prose "\nthen run\n", Segment.block "" "python main.py\n"]

def st_entry : EngineState :=
  { ai := ai_stub (String.mk (render_doc doc0)), console := console_stub "",
    dbs := { dbs0 with workspace := ⟨[("all_output.txt", "INFO")]⟩ }, fuel := 3 }

theorem c4_gen_entrypoint_blocks_witness :
    Except.map (fun p => p.2.dbs.workspace.get? "run.sh") (gen_entrypoint st_entry) =
      Except.ok (some (String.intercalate "\n" (block_contents doc0))) :=
  c4_gen_entrypoint_blocks st_entry doc0 "INFO" rfl (by rfl) (by rfl)

end GptEng
